import Mathlib

set_option maxRecDepth 8000

/-! Verification of the MINIMALDATA activation test harness
(`qa/rpc-tests/minimaldata-activation.py`).

The Python harness drives a node-under-test across the November 2019
MINIMALDATA activation boundary.  This file embeds the harness's pure
content: the fixture factory `create_fund_and_spend_tx`, the height
bookkeeping of `build_block`, median-time-past arithmetic, script
push-encoding and evaluation, and the scripted sequence of submissions
of `run_test` together with the outcomes the harness asserts.
External collaborators (the node, the p2p transport, helpers of
`test_framework` that are not part of the repository snapshot) are
modelled from the specification where noted. -/

namespace MDA

/-- The upgrade activation time, artificially set far in the future
(source line 42). -/
def NOV2019_START_TIME : Nat := 2000000000

/-- Standardness rejection reason for non-minimal pushes (source line 47). -/
def MINIMALPUSH_ERROR : String :=
  "non-mandatory-script-verify-flag (Data push larger than necessary)"

/-- Consensus rejection reason for blocks with invalid scripts (source line 50). -/
def BADSIGNATURE_ERROR : String := "bad-blk-signatures"

/-- `rpc_error` (source lines 53-55): formats a reason and a numeric code the
way the RPC channel reports rejections.  Both parameters are keyword-only in
the source. -/
def rpc_error (reject_code : Int) (reject_reason : String) : String :=
  reject_reason ++ " (code " ++ toString reject_code ++ ")"

/-- Script opcode OP_TRUE / OP_1 (pushes the number 1 minimally). -/
def OP_TRUE : Nat := 81

/-- Script opcode OP_ADD. -/
def OP_ADD : Nat := 147

/-- Script opcode OP_RETURN (data carrier). -/
def OP_RETURN : Nat := 106

/-- A script is an ordered list of bytes. -/
abbrev Script := List Nat

structure COutPoint where
  hash : Nat
  n : Nat
deriving DecidableEq

structure CTxIn where
  prevout : COutPoint
  scriptSig : Script
deriving DecidableEq

structure CTxOut where
  nValue : Nat
  scriptPubKey : Script
deriving DecidableEq

structure CTransaction where
  vin : List CTxIn
  vout : List CTxOut
deriving DecidableEq

/-- Default transaction output, used only to totalise list indexing. -/
def dfltOut : CTxOut := { nValue := 0, scriptPubKey := [] }

/-- Default transaction input, used only to totalise list indexing. -/
def dfltIn : CTxIn := { prevout := { hash := 0, n := 0 }, scriptSig := [] }

/-- Bound for the content digests: digests live below `2 ^ 64`. -/
def hashModulus : Nat := 18446744073709551616

/-- Deterministic mixing of two numbers into a bounded digest.  This stands
for the double-SHA256 content hashing of the node; no theorem in this file
assumes anything about it beyond determinism. -/
def mix (a b : Nat) : Nat := Nat.pair (a % hashModulus) (b % hashModulus) % hashModulus

/-- Digest of a list of already-digested components. -/
def mixList (f : α → Nat) : List α → Nat
  | [] => 0
  | a :: l => mix (f a) (mixList f l) + 1

/-- Content digest of an outpoint. -/
def COutPoint.digest (o : COutPoint) : Nat := mix o.hash o.n

/-- Content digest of an input. -/
def CTxIn.digest (i : CTxIn) : Nat := mix i.prevout.digest (mixList id i.scriptSig)

/-- Content digest of an output. -/
def CTxOut.digest (o : CTxOut) : Nat := mix o.nValue (mixList id o.scriptPubKey)

/-- Transaction identity (`rehash`/`sha256` of the source): a deterministic
digest of the transaction content. -/
def CTransaction.txid (t : CTransaction) : Nat :=
  mix (mixList CTxIn.digest t.vin) (mixList CTxOut.digest t.vout)

structure CBlock where
  hashPrevBlock : Nat
  nTime : Nat
  vtx : List CTransaction
deriving DecidableEq

/-- Block identity (`calc_sha256` of the source): a deterministic digest of
the block content. -/
def CBlock.sha256 (b : CBlock) : Nat :=
  mix b.hashPrevBlock (mix b.nTime (mixList CTransaction.txid b.vtx))

/-- Modelled from the spec: `test_framework.blocktools.create_coinbase` is not
part of the repository snapshot.  Per section 4.2 of the specification the
coinbase of every harness-built block pays to an unconditionally-spendable
script (`OP_TRUE` here, as passed by `build_block`); the block height is
recorded in the coinbase input script, which keeps coinbases of distinct
heights distinct. -/
def create_coinbase (height : Nat) : CTransaction :=
  { vin := [{ prevout := { hash := 0, n := 4294967295 }, scriptSig := [height] }],
    vout := [{ nValue := 5000000000, scriptPubKey := [OP_TRUE] }] }

/-- Modelled from the spec: `test_framework.blocktools.create_transaction` is
not part of the repository snapshot.  Per section 3 of the specification a
transaction has an ordered input list (each referencing a prior output by
transaction identity and index plus an unlocking script) and an ordered
output list (each a value and a locking script); this helper builds the
one-input/one-output transaction used by the funding step. -/
def create_transaction (prevtx : CTransaction) (n : Nat) (sig : Script)
    (value : Nat) (scriptPubKey : Script) : CTransaction :=
  { vin := [{ prevout := { hash := prevtx.txid, n := n }, scriptSig := sig }],
    vout := [{ nValue := value, scriptPubKey := scriptPubKey }] }

/-- Modelled from the spec: `test_framework.txtools.pad_tx` is not part of the
repository snapshot and the specification does not describe padding.  It is
modelled as appending a zero-value data-carrier output, which leaves the
inputs, the existing outputs and every script unchanged. -/
def pad_tx (tx : CTransaction) : CTransaction :=
  { tx with vout := tx.vout ++ [{ nValue := 0, scriptPubKey := [OP_RETURN] }] }

/-- Modelled from the spec: `test_framework.blocktools.make_conform_to_ctor`
is not part of the repository snapshot.  Per section 4.2 of the specification
the transaction order is normalized to the canonical order required by the
validation engine (coinbase first, the rest sorted by transaction identity). -/
def make_conform_to_ctor (b : CBlock) : CBlock :=
  match b.vtx with
  | [] => b
  | cb :: rest =>
      { b with vtx := cb :: List.insertionSort (fun t u => t.txid ≤ u.txid) rest }

/-- Modelled from the spec: `test_framework.blocktools.create_block` is not
part of the repository snapshot.  It assembles a block from a parent hash, a
coinbase and an explicit block time (section 4.2). -/
def create_block (prevHash : Nat) (coinbase : CTransaction) (blockTime : Nat) : CBlock :=
  { hashPrevBlock := prevHash, nTime := blockTime, vtx := [coinbase] }

/-- The harness's height-by-hash map `self.block_heights`, an association
list with the most recent registration first. -/
abbrev Heights := List (Nat × Nat)

/-- Lookup in the height map (`self.block_heights[key]`). -/
def lookupH : Heights → Nat → Option Nat
  | [], _ => none
  | (k, v) :: rest, key => if key = k then some v else lookupH rest key

/-- The block `build_block` assembles once the height is known (source lines
102-109): the timestamp defaults to the parent's plus one, the coinbase pays
`OP_TRUE`, the extra transactions are appended and the order normalized. -/
def assembled (parent : CBlock) (transactions : List CTransaction) (nTime : Option Nat)
    (height : Nat) : CBlock :=
  let b0 := create_block parent.sha256 (create_coinbase height) (nTime.getD (parent.nTime + 1))
  make_conform_to_ctor { b0 with vtx := b0.vtx ++ transactions }

/-- `build_block` (source lines 96-111): requires the parent's height to be
registered (a missing parent is a failed lookup, hence `none`), assembles the
block at the parent's height plus one, and registers the new block's height
in the map at build time. -/
def build_block (hs : Heights) (parent : CBlock) (transactions : List CTransaction)
    (nTime : Option Nat) : Option (CBlock × Heights) :=
  match lookupH hs parent.sha256 with
  | none => none
  | some h =>
      let b1 := assembled parent transactions nTime (h + 1)
      some (b1, (b1.sha256, h + 1) :: hs)

/-- The closure state of `run_test` feeding `create_fund_and_spend_tx`: the
pool of spendable coinbases and the accumulated funding transactions. -/
structure FactoryState where
  spendable_outputs : List CTransaction
  fundings : List CTransaction
deriving DecidableEq

/-- The funding transaction built by one factory call (source lines 157-165):
it redirects the full value of the source's first output into the two-operand
`OP_ADD` check, then is padded and rehashed. -/
def fundOf (spendfrom : CTransaction) : CTransaction :=
  pad_tx (create_transaction spendfrom 0 []
    (spendfrom.vout.headD dfltOut).nValue [OP_ADD])

/-- The spending transaction built by one factory call (source lines 167-178):
one output paying the source value minus 1000 to `OP_TRUE`, one input spending
output 0 of the funding transaction of the same call, with the unlocking
script bytes `b'\x01\x01\x51'` (a 2-byte non-minimal push of 1, then OP_1),
then padded. -/
def spendOf (spendfrom : CTransaction) : CTransaction :=
  pad_tx
    { vin := [{ prevout := { hash := (fundOf spendfrom).txid, n := 0 },
                scriptSig := [1, 1, 81] }],
      vout := [{ nValue := (spendfrom.vout.headD dfltOut).nValue - 1000,
                 scriptPubKey := [OP_TRUE] }] }

/-- `create_fund_and_spend_tx` (source lines 154-180): pops the last entry of
the spendable pool (`list.pop()`; popping an empty pool fails — the
specification's `ExhaustedFixtureSourceError`), appends the funding
transaction to `fundings`, and returns the spending transaction. -/
def create_fund_and_spend_tx (st : FactoryState) : Option (CTransaction × FactoryState) :=
  match st.spendable_outputs.getLast? with
  | none => none
  | some spendfrom =>
      some (spendOf spendfrom,
        { spendable_outputs := st.spendable_outputs.dropLast,
          fundings := st.fundings ++ [fundOf spendfrom] })

/-- Repeated factory calls: performs `n` calls, recording the consumed
funding source of each call in order; fails as soon as one call fails. -/
def runFactory : Nat → FactoryState → Option (List CTransaction × FactoryState)
  | 0, st => some ([], st)
  | n + 1, st =>
      match create_fund_and_spend_tx st with
      | none => none
      | some (_, st') =>
          match st.spendable_outputs.getLast? with
          | none => none
          | some src =>
              match runFactory n st' with
              | none => none
              | some (srcs, stF) => some (src :: srcs, stF)

/-- A parsed script element: either a data push (with the pushed bytes and
the number of script bytes its encoding occupies) or a non-push opcode. -/
inductive ParsedOp where
  | pushData (bytes : List Nat) (encLen : Nat)
  | op (code : Nat)
deriving DecidableEq

/-- Encoding length of a parsed element. -/
def ParsedOp.encLen : ParsedOp → Nat
  | .pushData _ n => n
  | .op _ => 1

/-- Modelled from the spec: the script byte decoder of
`test_framework.script` is not part of the repository snapshot; the glossary
of the specification fixes the push-encoding convention.  Opcodes 1-75 push
that many following bytes (encoding length the count plus one); `0x4c`
(OP_PUSHDATA1) reads a length byte then that many bytes (encoding length the
count plus two); `0x00` pushes the empty vector; `0x51`-`0x60` (OP_1-OP_16)
push the corresponding small number in one byte.  The first argument is
recursion fuel, at least the script length. -/
def parseAux : Nat → List Nat → Option (List ParsedOp)
  | _, [] => some []
  | 0, _ :: _ => none
  | fuel + 1, b :: rest =>
      if 1 ≤ b ∧ b ≤ 75 then
        if rest.length < b then none
        else
          match parseAux fuel (rest.drop b) with
          | some ops => some (ParsedOp.pushData (rest.take b) (b + 1) :: ops)
          | none => none
      else if b = 0 then
        (parseAux fuel rest).map (fun ops => ParsedOp.pushData [] 1 :: ops)
      else if b = 76 then
        match rest with
        | [] => none
        | n :: rest2 =>
            if rest2.length < n then none
            else
              match parseAux fuel (rest2.drop n) with
              | some ops => some (ParsedOp.pushData (rest2.take n) (n + 2) :: ops)
              | none => none
      else if 81 ≤ b ∧ b ≤ 96 then
        (parseAux fuel rest).map (fun ops => ParsedOp.pushData [b - 80] 1 :: ops)
      else
        (parseAux fuel rest).map (fun ops => ParsedOp.op b :: ops)

/-- Parse a whole script. -/
def parseScript (s : Script) : Option (List ParsedOp) := parseAux s.length s

/-- Value of a little-endian byte list. -/
def leVal : List Nat → Nat
  | [] => 0
  | b :: rest => b + 256 * leVal rest

/-- Numeric value of a pushed byte vector (little endian, sign bit in the
last byte), as the script arithmetic operations read it. -/
def decodeNum (bs : List Nat) : Int :=
  match bs.getLast? with
  | none => 0
  | some top =>
      if top < 128 then (leVal bs : Int)
      else -((leVal (bs.dropLast ++ [top - 128]) : Int))

/-- The minimal number of script bytes that can push the given byte vector:
the empty vector and the numbers 1-16 (and -1) have one-byte opcodes;
otherwise a direct push uses one length-opcode byte. -/
def minimalPushLen (bs : List Nat) : Nat :=
  match bs with
  | [] => 1
  | [b] => if (1 ≤ b ∧ b ≤ 16) ∨ b = 129 then 1 else 2
  | _ =>
      if bs.length ≤ 75 then bs.length + 1
      else if bs.length ≤ 255 then bs.length + 2
      else bs.length + 3

/-- Modelled from the spec: evaluation of the tiny script fragment the
fixtures use (pushes and OP_ADD), with an optional MINIMALDATA flag.  When
the flag is set, a push whose encoding is longer than the minimal encoding
of its data fails, which is exactly the "minimal push" convention of the
specification's glossary. -/
def evalOps (minimal : Bool) : List ParsedOp → List Int → Option (List Int)
  | [], st => some st
  | ParsedOp.pushData bs el :: rest, st =>
      if minimal ∧ el ≠ minimalPushLen bs then none
      else evalOps minimal rest (decodeNum bs :: st)
  | ParsedOp.op c :: rest, st =>
      if c = OP_ADD then
        match st with
        | a :: b :: st' => evalOps minimal rest ((a + b) :: st')
        | _ => none
      else none

/-- Whether unlocking script plus locking script evaluate to a truthy top
stack element, under the given MINIMALDATA flag. -/
def scriptPasses (minimal : Bool) (scriptSig scriptPubKey : Script) : Bool :=
  match parseScript scriptSig, parseScript scriptPubKey with
  | some sigOps, some pkOps =>
      match evalOps minimal sigOps [] with
      | some st =>
          match evalOps minimal pkOps st with
          | some (top :: _) => decide (top ≠ 0)
          | _ => false
      | none => false
  | _, _ => false

/-- Median-time-past: the sorted median of the timestamps of the last
(up to) 11 blocks, exactly as the node computes `mediantime`
(specification glossary and section 3, ActivationWindow). -/
def sortTimes (l : List Nat) : List Nat := List.insertionSort (fun a b => a ≤ b) l

/-- MTP of a chain given its block timestamps in height order. -/
def medianTimePast (times : List Nat) : Nat :=
  (sortTimes (times.drop (times.length - 11))).getD
    ((times.drop (times.length - 11)).length / 2) 0

/-! The scripted scenario of `run_test` (source lines 130-258), embedded as a
concrete representative run.  The only data the harness does not itself
determine are the blocks the node mines on its own (`node.generate(1)` and
`node.generate(100)`) and the contents of the two tips fetched by
`getbestblock`; these external inputs are fixed below to a representative
assignment (consecutive timestamps far below the activation threshold, as any
real run before the year 2033 produces). -/

/-- External input: timestamp of the node-mined block at height 1 (the tip
fetched by the first `getbestblock`). -/
def t0 : Nat := 1500000000

/-- External input: the tip fetched by the first `getbestblock` (height 1).
Its content is opaque to the harness; only its digest and timestamp are
used. -/
def tip1 : CBlock := { hashPrevBlock := 0, nTime := t0, vtx := [] }

/-- The height map right after the first `getbestblock` registered `tip1`. -/
def hs1 : Heights := [(tip1.sha256, 1)]

/-- Totalised `build_block` for the concrete scenario: every parent in the
scripted run is registered, so the default branch is never taken (the
theorems below evaluate the concrete results). -/
def build_blockD (hs : Heights) (parent : CBlock) (txs : List CTransaction)
    (nTime : Option Nat) : CBlock × Heights :=
  (build_block hs parent txs nTime).getD ({ hashPrevBlock := 0, nTime := 0, vtx := [] }, hs)

/-- Mine `n` successive default-timestamped blocks (the loop of source lines
140-142), returning the final height map, tip and the mined blocks in
order. -/
def mineN : Nat → Heights × CBlock × List CBlock → Heights × CBlock × List CBlock
  | 0, s => s
  | n + 1, (hs, tip, acc) =>
      let p := build_blockD hs tip [] none
      mineN n (p.2, p.1, acc ++ [p.1])

/-- Heights, tip and blocks after the ten spendable-coinbase blocks. -/
def stageA : Heights × CBlock × List CBlock := mineN 10 (hs1, tip1, [])

/-- The ten blocks mined for spendable coinbases (heights 2-11). -/
def blocksA : List CBlock := stageA.2.2

/-- `spendable_outputs` (source line 144): the coinbase of each of the ten
blocks. -/
def spendable_outputs0 : List CTransaction :=
  blocksA.map (fun b => b.vtx.headD { vin := [], vout := [] })

/-- External input: the tip fetched by `getbestblock` after
`node.generate(100)` (height 111).  The node's hundred blocks are modelled
with consecutive timestamps `t0 + 11 … t0 + 110`. -/
def tip111 : CBlock := { hashPrevBlock := 777, nTime := t0 + 110, vtx := [] }

/-- The height map after the second `getbestblock` registered `tip111`. -/
def hsB : Heights := (tip111.sha256, 111) :: stageA.1

/-- First factory call (source line 183). -/
def fac1 : CTransaction × FactoryState :=
  (create_fund_and_spend_tx { spendable_outputs := spendable_outputs0, fundings := [] }).getD
    ({ vin := [], vout := [] }, { spendable_outputs := [], fundings := [] })

/-- The first non-minimal-push fixture. -/
def nonminimaltx : CTransaction := fac1.1

/-- Second factory call (source line 184). -/
def fac2 : CTransaction × FactoryState :=
  (create_fund_and_spend_tx fac1.2).getD
    ({ vin := [], vout := [] }, { spendable_outputs := [], fundings := [] })

/-- The second non-minimal-push fixture. -/
def nonminimaltx_2 : CTransaction := fac2.1

/-- Third factory call (source line 185). -/
def fac3 : CTransaction × FactoryState :=
  (create_fund_and_spend_tx fac2.2).getD
    ({ vin := [], vout := [] }, { spendable_outputs := [], fundings := [] })

/-- The third non-minimal-push fixture. -/
def nonminimaltx_3 : CTransaction := fac3.1

/-- The three funding transactions, in creation order. -/
def fundings3 : List CTransaction := fac3.2.fundings

/-- The block mining the three fundings (source line 187, height 112). -/
def fundingStage : CBlock × Heights := build_blockD hsB tip111 fundings3 none

def fundingBlock : CBlock := fundingStage.1

def hsC : Heights := fundingStage.2

/-- The pre-activation block mining fixture 1 (source line 212, height 113). -/
def nmStage : CBlock × Heights := build_blockD hsC fundingBlock [nonminimaltx] none

def nmBlock : CBlock := nmStage.1

def hsD : Heights := nmStage.2

/-- The six explicit timestamps of the crossing run (source lines 222-223:
`NOV2019_START_TIME + i` for `i` from -1 to 4). -/
def runTimes : List Nat :=
  [NOV2019_START_TIME - 1, NOV2019_START_TIME, NOV2019_START_TIME + 1,
   NOV2019_START_TIME + 2, NOV2019_START_TIME + 3, NOV2019_START_TIME + 4]

/-- Mine blocks with the given explicit timestamps. -/
def mineTimes : List Nat → Heights × CBlock × List CBlock → Heights × CBlock × List CBlock
  | [], s => s
  | t :: ts, (hs, tip, acc) =>
      let p := build_blockD hs tip [] (some t)
      mineTimes ts (p.2, p.1, acc ++ [p.1])

/-- Heights, tip and blocks after the six-block crossing run
(heights 114-119). -/
def stageRun : Heights × CBlock × List CBlock := mineTimes runTimes (hsD, nmBlock, [])

/-- The six crossing blocks. -/
def runBlocks : List CBlock := stageRun.2.2

def tipRun : CBlock := stageRun.2.1

def hsE : Heights := stageRun.1

/-- The boundary block: embeds fixture 2, default timestamp, height 120
(source line 234). -/
def boundaryStage : CBlock × Heights := build_blockD hsE tipRun [nonminimaltx_2] none

def boundaryBlock : CBlock := boundaryStage.1

def hsF : Heights := boundaryStage.2

/-- The post-activation block: embeds fixture 3, height 121 (source line
247; built, hence registered, although its submission expects rejection). -/
def postStage : CBlock × Heights := build_blockD hsF boundaryBlock [nonminimaltx_3] none

def postBlock : CBlock := postStage.1

/-- The height map at the early return (source line 248). -/
def hsG : Heights := postStage.2

/-- The block of the unreachable final mine (source line 257): built from the
same tip as the post-activation block, with no extra transactions. -/
def deadStage : CBlock × Heights := build_blockD hsG boundaryBlock [] none

def deadBlock : CBlock := deadStage.1

/-- Timestamps of the node's chain for heights 1-113 in the representative
run: `t0 + (h - 1)` for height `h`.  Heights 2-11 and 112-113 are
harness-built with the default parent-plus-one timestamp, matching this
formula; heights 12-111 are the node-mined `generate(100)` blocks of the
representative assignment. -/
def timesTo113 : List Nat := (List.range 113).map (fun i => t0 + i)

/-- The node's reported MTP after the first `i` blocks of the crossing run
have been accepted. -/
def mtpAfter (i : Nat) : Nat := medianTimePast (timesTo113 ++ runTimes.take i)

/-- An expected-reason argument of an RPC assertion: either a string literal,
or the ill-formed single-positional-argument application of `rpc_error`
appearing in the unreachable source line 251 (`rpc_error` takes two
keyword-only parameters, so this application cannot produce a string). -/
inductive ReasonArg where
  | lit (s : String)
  | rpcErrorOneArg (s : String)
deriving DecidableEq

/-- One step of the scripted scenario, with the outcome the harness asserts.
The two submission channels are the specification's SubmitChannel contract
(section 4.4): `sendBlocks` and `p2pSendTx` are the peer variant
(`send_blocks_and_test` / `send_txs_and_test`, where `expectBan` means the
peer connection is observed closed by the node), `rpcSendTx` is the direct
variant (`assert_raises_rpc_error` around `sendrawtransaction`, with its
numeric code). -/
inductive Step where
  | generate (n : Nat)
  | sendBlocks (blocks : List CBlock) (success : Bool) (expectBan : Bool)
      (reason : Option String)
  | rpcSendTx (tx : CTransaction) (code : Int) (reason : ReasonArg)
  | p2pSendTx (tx : CTransaction) (expectBan : Bool) (reason : String)
  | assertMempoolEmpty
  | setMockTime (t : Nat)
  | assertMedianTime (t : Nat)
  | ret
deriving DecidableEq

/-- Whether a step is the bare `return` statement. -/
def Step.isRet : Step → Bool
  | .ret => true
  | _ => false

/-- Whether a step submits a standalone transaction (either channel). -/
def Step.isTxSubmit : Step → Bool
  | .rpcSendTx _ _ _ => true
  | .p2pSendTx _ _ _ => true
  | _ => false

/-- Whether a step submits the given block. -/
def submitsBlock (b : CBlock) : Step → Bool
  | .sendBlocks bs _ _ _ => bs.contains b
  | _ => false

/-- Whether a step asserts that the peer connection is closed by the node
(the ban signal of the specification's glossary). -/
def Step.expectsPeerDisconnect : Step → Bool
  | .sendBlocks _ _ ban _ => ban
  | .p2pSendTx _ ban _ => ban
  | _ => false

/-- The full statement sequence of `run_test` (source lines 130-258),
including the three statements after the early `return` of line 248.
`send_blocks_and_test` is invoked with its default `success=True` wherever
the source omits the argument (as line 143 spells out explicitly for the
same call; the median-time assertions of lines 226 and 238 presuppose those
blocks extend the chain). -/
def runTestFull : List Step :=
  [Step.generate 1,
   Step.sendBlocks blocksA true false none,
   Step.generate 100,
   Step.sendBlocks [fundingBlock] true false none,
   Step.rpcSendTx nonminimaltx (-26) (ReasonArg.lit MINIMALPUSH_ERROR),
   Step.rpcSendTx nonminimaltx_2 (-26) (ReasonArg.lit MINIMALPUSH_ERROR),
   Step.rpcSendTx nonminimaltx_3 (-26) (ReasonArg.lit MINIMALPUSH_ERROR),
   Step.p2pSendTx nonminimaltx false MINIMALPUSH_ERROR,
   Step.p2pSendTx nonminimaltx_2 false MINIMALPUSH_ERROR,
   Step.p2pSendTx nonminimaltx_3 false MINIMALPUSH_ERROR,
   Step.assertMempoolEmpty,
   Step.sendBlocks [nmBlock] true false none,
   Step.setMockTime NOV2019_START_TIME,
   Step.sendBlocks runBlocks true false none,
   Step.assertMedianTime (NOV2019_START_TIME - 1),
   Step.sendBlocks [boundaryBlock] true false none,
   Step.assertMedianTime NOV2019_START_TIME,
   Step.sendBlocks [postBlock] false true (some BADSIGNATURE_ERROR),
   Step.ret,
   Step.rpcSendTx nonminimaltx_3 (-26) (ReasonArg.rpcErrorOneArg MINIMALPUSH_ERROR),
   Step.p2pSendTx nonminimaltx_3 false MINIMALPUSH_ERROR,
   Step.sendBlocks [deadBlock] true false none]

/-- The steps `run_test` actually executes: Python stops the function at the
first `return`, so execution is the prefix before the `ret` marker. -/
def runTestExec : List Step := runTestFull.takeWhile (fun s => !s.isRet)

/-- The three statements after the early return (source lines 249-258). -/
def deadSteps : List Step :=
  [Step.rpcSendTx nonminimaltx_3 (-26) (ReasonArg.rpcErrorOneArg MINIMALPUSH_ERROR),
   Step.p2pSendTx nonminimaltx_3 false MINIMALPUSH_ERROR,
   Step.sendBlocks [deadBlock] true false none]

/-! Helper lemmas. -/

/-- Successful `build_block`: the parent is registered, the assembled block is
returned and its height is registered on top of the map. -/
theorem build_block_eq_some {hs : Heights} {parent : CBlock} {txs : List CTransaction}
    {nT : Option Nat} {h : Nat} (hl : lookupH hs parent.sha256 = some h) :
    build_block hs parent txs nT =
      some (assembled parent txs nT (h + 1),
        ((assembled parent txs nT (h + 1)).sha256, h + 1) :: hs) := by
  simp [build_block, hl]

/-- Failed `build_block`: an unregistered parent makes the height lookup, and
hence the build, fail. -/
theorem build_block_eq_none {hs : Heights} {parent : CBlock} {txs : List CTransaction}
    {nT : Option Nat} (hl : lookupH hs parent.sha256 = none) :
    build_block hs parent txs nT = none := by
  simp [build_block, hl]

/-- One factory call on a non-empty pool: the last pool entry is consumed and
its funding transaction appended. -/
theorem create_fund_and_spend_tx_concat (ys : List CTransaction) (y : CTransaction)
    (f : List CTransaction) :
    create_fund_and_spend_tx { spendable_outputs := ys ++ [y], fundings := f } =
      some (spendOf y, { spendable_outputs := ys, fundings := f ++ [fundOf y] }) := by
  simp [create_fund_and_spend_tx, List.getLast?_concat, List.dropLast_concat]

/-- `n` factory calls on a pool of `n` entries succeed, consuming the pool
from its end: the consumed sources are the reversed pool, no source is
consumed twice, and the pool ends empty. -/
theorem runFactory_complete (pool : List CTransaction) : ∀ f : List CTransaction,
    runFactory pool.length { spendable_outputs := pool, fundings := f } =
      some (pool.reverse,
        { spendable_outputs := [], fundings := f ++ pool.reverse.map fundOf }) := by
  induction pool using List.reverseRecOn with
  | nil => intro f; simp [runFactory]
  | append_singleton ys y ih =>
      intro f
      have h1 : (ys ++ [y]).length = ys.length + 1 := by simp
      rw [h1]
      simp only [runFactory, create_fund_and_spend_tx_concat, List.getLast?_concat]
      rw [ih (f ++ [fundOf y])]
      simp

/-- Unfolding one factory iteration on a pool with a last element. -/
theorem runFactory_succ_concat (n : Nat) (ys : List CTransaction) (y : CTransaction)
    (f : List CTransaction) :
    runFactory (n + 1) { spendable_outputs := ys ++ [y], fundings := f } =
      match runFactory n { spendable_outputs := ys, fundings := f ++ [fundOf y] } with
      | none => none
      | some (srcs, stF) => some (y :: srcs, stF) := by
  simp only [runFactory, create_fund_and_spend_tx_concat, List.getLast?_concat]

/-- One more call than the pool has entries fails: the pool is exhausted. -/
theorem runFactory_exhausted (pool : List CTransaction) : ∀ f : List CTransaction,
    runFactory (pool.length + 1) { spendable_outputs := pool, fundings := f } = none := by
  induction pool using List.reverseRecOn with
  | nil => intro f; simp [runFactory, create_fund_and_spend_tx]
  | append_singleton ys y ih =>
      intro f
      have h1 : (ys ++ [y]).length + 1 = ys.length + 1 + 1 := by simp
      rw [h1, runFactory_succ_concat, ih (f ++ [fundOf y])]

/-- Appending the six crossing-run timestamps to any chain of at least five
blocks whose timestamps all lie below `threshold - 1` makes the MTP exactly
`threshold - 1`: the run's six timestamps occupy the upper six slots of the
sorted 11-block window, so the median is the smallest of them. -/
theorem mtp_append_run (pre : List Nat) (h5 : 5 ≤ pre.length)
    (hb : ∀ t ∈ pre, t < NOV2019_START_TIME - 1) :
    medianTimePast (pre ++ runTimes) = NOV2019_START_TIME - 1 := by
  have hlen : (pre ++ runTimes).length = pre.length + 6 := by simp [runTimes]
  have hNat : (pre ++ runTimes).length - 11 = pre.length - 5 := by omega
  have hwin : (pre ++ runTimes).drop ((pre ++ runTimes).length - 11) =
      pre.drop (pre.length - 5) ++ runTimes := by
    rw [hNat, List.drop_append_eq_append_drop]
    have h0 : pre.length - 5 - pre.length = 0 := by omega
    rw [h0, List.drop_zero]
  have hdlen : (pre.drop (pre.length - 5)).length = 5 := by
    rw [List.length_drop]; omega
  have hmemd : ∀ x ∈ pre.drop (pre.length - 5), x < NOV2019_START_TIME - 1 :=
    fun x hx => hb x (List.mem_of_mem_drop hx)
  have hperm : List.Perm (sortTimes (pre.drop (pre.length - 5) ++ runTimes))
      (sortTimes (pre.drop (pre.length - 5)) ++ runTimes) := by
    refine (List.perm_insertionSort _ _).trans ?_
    exact ((List.perm_insertionSort _ (pre.drop (pre.length - 5))).symm).append_right runTimes
  have hsorted2 : List.Sorted (fun a b : Nat => a ≤ b)
      (sortTimes (pre.drop (pre.length - 5)) ++ runTimes) := by
    refine List.pairwise_append.mpr ⟨List.sorted_insertionSort _ _, by decide, ?_⟩
    intro x hx y hy
    have hxd : x ∈ pre.drop (pre.length - 5) := (List.mem_insertionSort _).mp hx
    have hx' : x < NOV2019_START_TIME - 1 := hmemd x hxd
    have hy' : NOV2019_START_TIME - 1 ≤ y := by
      have hall : ∀ z ∈ runTimes, NOV2019_START_TIME - 1 ≤ z := by decide
      exact hall y hy
    omega
  have heq : sortTimes (pre.drop (pre.length - 5) ++ runTimes) =
      sortTimes (pre.drop (pre.length - 5)) ++ runTimes :=
    List.eq_of_perm_of_sorted hperm (List.sorted_insertionSort _ _) hsorted2
  have hsl : (sortTimes (pre.drop (pre.length - 5))).length = 5 := by
    rw [sortTimes, List.length_insertionSort]; exact hdlen
  have hwl : (pre.drop (pre.length - 5) ++ runTimes).length = 11 := by
    simp [hdlen, runTimes]
  rw [medianTimePast, hwin, hwl, heq]
  show (sortTimes (pre.drop (pre.length - 5)) ++ runTimes).getD 5 0 = _
  rw [List.getD_eq_getElem?_getD, List.getElem?_append_right (le_of_eq hsl), hsl]
  rfl

/-! The claims. -/

/-- C1: the claim states that the single BOUNDARY block — the block whose
inclusion first makes the chain's MTP equal the activation threshold — is
governed by the post-activation rule, i.e. that the scenario's assertion
treats the fixture-embedding boundary block under the new consensus
semantics instead of accepting it under the pre-activation rule.  This is
false on the code: the boundary submission (source lines 234-235, directly
between the `mediantime == threshold - 1` and `mediantime == threshold`
assertions) expects the block to be ACCEPTED (`success = true`, no ban, no
reject reason) although it embeds fixture 2 — the source comment calls it a
violation "at the last possible moment". -/
theorem C1_counterexample :
    runTestExec[14]? = some (Step.assertMedianTime (NOV2019_START_TIME - 1)) ∧
    runTestExec[15]? = some (Step.sendBlocks [boundaryBlock] true false none) ∧
    boundaryBlock.vtx.contains nonminimaltx_2 = true ∧
    runTestExec[16]? = some (Step.assertMedianTime NOV2019_START_TIME) := by decide

/-- C1 (amended): the boundary block is governed by the PRE-activation rule:
the scenario embeds a non-minimal-push fixture in the boundary block and
asserts that the block is accepted; the post-activation rule first governs
the following block, whose fixture-embedding submission the scenario asserts
to be rejected with a ban. -/
theorem C1_boundary_pre_rule :
    runTestExec[15]? = some (Step.sendBlocks [boundaryBlock] true false none) ∧
    boundaryBlock.vtx.contains nonminimaltx_2 = true ∧
    runTestExec[16]? = some (Step.assertMedianTime NOV2019_START_TIME) ∧
    runTestExec[17]? = some (Step.sendBlocks [postBlock] false true (some BADSIGNATURE_ERROR)) ∧
    postBlock.vtx.contains nonminimaltx_3 = true := by decide

/-- C2: one block past the boundary, the scenario submits a block embedding a
non-minimal-push fixture and asserts rejection with a ban, carrying the
generic invalid-block reason "bad-blk-signatures" (not the standardness
reason), the ban being observed as the peer connection closed (source lines
244-247 with `check_for_ban_on_rejected_block`, lines 124-128). -/
theorem C2_post_activation_ban :
    runTestExec[17]? = some (Step.sendBlocks [postBlock] false true (some BADSIGNATURE_ERROR)) ∧
    postBlock.vtx.contains nonminimaltx_3 = true ∧
    BADSIGNATURE_ERROR = "bad-blk-signatures" ∧
    (Step.sendBlocks [postBlock] false true (some BADSIGNATURE_ERROR)).expectsPeerDisconnect
      = true ∧
    (Step.sendBlocks [postBlock] false true (some BADSIGNATURE_ERROR)).isTxSubmit = false := by
  decide

/-- C3: the claim states that standalone fixture submissions happen, with
identical RejectedNoBan outcomes, on BOTH sides of activation.  This is
false on the code: in the executed scenario no standalone transaction
submission occurs at or after the activation point (the `mediantime ==
threshold` assertion); the only post-activation standalone checks sit after
the early `return` (source lines 249-254), and the RPC one's expected reason
is the ill-formed one-argument application of `rpc_error`, not the
standardness reason literal. -/
theorem C3_counterexample :
    (runTestExec.dropWhile (fun s => s != Step.assertMedianTime NOV2019_START_TIME)).filter
        Step.isTxSubmit = [] ∧
    (runTestFull.dropWhile (fun s => s != Step.assertMedianTime NOV2019_START_TIME)).filter
        Step.isTxSubmit =
      [Step.rpcSendTx nonminimaltx_3 (-26) (ReasonArg.rpcErrorOneArg MINIMALPUSH_ERROR),
       Step.p2pSendTx nonminimaltx_3 false MINIMALPUSH_ERROR] := by decide

/-- C3 (amended): every standalone submission of a non-minimal-push fixture
the scenario executes — three over the direct RPC channel (numeric code -26)
and three over the peer channel (no ban) — occurs before activation and
asserts RejectedNoBan with the reason "non-mandatory-script-verify-flag
(Data push larger than necessary)", and the mempool is asserted empty
immediately afterwards; the corresponding post-activation re-checks are
unreachable dead code. -/
theorem C3_standalone_rejections :
    runTestExec.filter Step.isTxSubmit =
      [Step.rpcSendTx nonminimaltx (-26) (ReasonArg.lit MINIMALPUSH_ERROR),
       Step.rpcSendTx nonminimaltx_2 (-26) (ReasonArg.lit MINIMALPUSH_ERROR),
       Step.rpcSendTx nonminimaltx_3 (-26) (ReasonArg.lit MINIMALPUSH_ERROR),
       Step.p2pSendTx nonminimaltx false MINIMALPUSH_ERROR,
       Step.p2pSendTx nonminimaltx_2 false MINIMALPUSH_ERROR,
       Step.p2pSendTx nonminimaltx_3 false MINIMALPUSH_ERROR] ∧
    (runTestExec.take 10).filter Step.isTxSubmit = runTestExec.filter Step.isTxSubmit ∧
    runTestExec[10]? = some Step.assertMempoolEmpty ∧
    runTestExec[12]? = some (Step.setMockTime NOV2019_START_TIME) ∧
    MINIMALPUSH_ERROR =
      "non-mandatory-script-verify-flag (Data push larger than necessary)" := by decide

/-- C4: the claim states that the six-block crossing run makes the MTP
increase by exactly one unit per mined block across the run.  This is false
on the code: in the representative run the MTP after the sixth block is
`threshold - 1` while the MTP after the fifth block is still the pre-run
median (the last default timestamp, `t0 + 112`), a jump far larger than one
unit — for any pre-run chain whose timestamps lie below `threshold - 2` the
final step of the run cannot be a one-unit increase. -/
theorem C4_counterexample :
    mtpAfter 6 = NOV2019_START_TIME - 1 ∧
    mtpAfter 5 = t0 + 112 ∧
    mtpAfter 6 - mtpAfter 5 ≠ 1 := by decide

/-- C4 (amended): mining the run of six explicitly-timestamped blocks
(timestamps `threshold - 1` through `threshold + 4`) makes the MTP — the
sorted median of the last 11 blocks' timestamps — non-decreasing per mined
block, and after the run the reported MTP equals exactly `threshold - 1`;
this final value holds for every pre-run chain of at least five blocks whose
timestamps all lie below `threshold - 1`, but the per-block increase is not
one unit throughout the run (the final block jumps the MTP from the pre-run
median to `threshold - 1`). -/
theorem C4_crossing_mtp :
    (∀ pre : List Nat, 5 ≤ pre.length → (∀ t ∈ pre, t < NOV2019_START_TIME - 1) →
      medianTimePast (pre ++ runTimes) = NOV2019_START_TIME - 1) ∧
    (∀ i, i < 6 → mtpAfter i ≤ mtpAfter (i + 1)) ∧
    runBlocks.map CBlock.nTime = runTimes :=
  ⟨mtp_append_run, by decide, by decide⟩

/-- C4 witness: the amended statement applied to the representative pre-run
chain of the scenario. -/
theorem C4_crossing_mtp_witness :
    medianTimePast (timesTo113 ++ runTimes) = NOV2019_START_TIME - 1 :=
  C4_crossing_mtp.1 timesTo113 (by decide) (by decide)

/-- C5: for every block built from a parent whose height is registered, the
built block's registered height is the parent's registered height plus one;
building from a parent that was never registered fails, because the height
lookup for the parent does not succeed (source lines 96-111). -/
theorem C5_height_registration (hs : Heights) (parent : CBlock)
    (txs : List CTransaction) (nT : Option Nat) :
    (∀ h, lookupH hs parent.sha256 = some h →
      ∃ b hs', build_block hs parent txs nT = some (b, hs') ∧
        lookupH hs' b.sha256 = some (h + 1)) ∧
    (lookupH hs parent.sha256 = none → build_block hs parent txs nT = none) := by
  constructor
  · intro h hl
    exact ⟨assembled parent txs nT (h + 1),
      ((assembled parent txs nT (h + 1)).sha256, h + 1) :: hs,
      build_block_eq_some hl, by simp [lookupH]⟩
  · intro hl
    exact build_block_eq_none hl

/-- C5 witness: building on the registered initial tip registers height 2;
building with an empty height map fails. -/
theorem C5_height_registration_witness :
    (∃ b hs', build_block hs1 tip1 [] none = some (b, hs') ∧
      lookupH hs' b.sha256 = some (1 + 1)) ∧
    build_block ([] : Heights) tip1 [] none = none :=
  ⟨(C5_height_registration hs1 tip1 [] none).1 1 (by decide),
   (C5_height_registration ([] : Heights) tip1 [] none).2 (by decide)⟩

/-- C6: the claim states that the spending transaction's unlocking script
encodes the literal 1 using an explicit 3-byte push (push opcode, length
byte, value byte).  This is false on the code: the unlocking script is the
3 bytes `0x01 0x01 0x51`, which parse as a TWO-byte direct push of the byte
1 (the opcode `0x01` itself encodes the length, with no separate length
byte) followed by the independent one-byte minimal push OP_1; no parsed push
occupies three bytes. -/
theorem C6_counterexample :
    (nonminimaltx.vin.headD dfltIn).scriptSig = [1, 1, 81] ∧
    parseScript [1, 1, 81] = some [ParsedOp.pushData [1] 2, ParsedOp.pushData [1] 1] ∧
    (ParsedOp.pushData [1] 2).encLen = 2 ∧
    (ParsedOp.pushData [1] 2).encLen ≠ 3 ∧
    (ParsedOp.pushData [1] 1).encLen ≠ 3 := by decide

/-- C6 (amended): the spending transaction's unlocking script is exactly the
3 bytes `0x01 0x01 0x51`: a 2-byte non-minimal push of the literal 1 (direct
push opcode `0x01` then the value byte, where the minimal encoding OP_1 is a
single byte) followed by a separate minimal OP_1 push supplying `OP_ADD`'s
second operand.  The non-minimal push is the sole defect: the script
satisfies the `OP_ADD` locking script when minimality is not enforced, fails
when it is, and passes again once the non-minimal push is replaced by the
minimal opcode. -/
theorem C6_nonminimal_push :
    (nonminimaltx.vin.headD dfltIn).scriptSig = [1, 1, 81] ∧
    ((fundings3.headD { vin := [], vout := [] }).vout.headD dfltOut).scriptPubKey = [OP_ADD] ∧
    parseScript [1, 1, 81] = some [ParsedOp.pushData [1] 2, ParsedOp.pushData [1] 1] ∧
    minimalPushLen [1] = 1 ∧
    scriptPasses false [1, 1, 81] [OP_ADD] = true ∧
    scriptPasses true [1, 1, 81] [OP_ADD] = false ∧
    scriptPasses true [81, 81] [OP_ADD] = true := by decide

/-- C7: fixture generation from a pool of N funding outputs consumes exactly
one pool entry per call, from the end, and never reuses an entry: N calls
consume the reversed pool (pairwise distinct when the pool is), leave the
pool empty, and the (N+1)-th call fails because the pool is exhausted
(source lines 154-156: `spendable_outputs.pop()`). -/
theorem C7_pool_consumption (pool f : List CTransaction) :
    runFactory pool.length { spendable_outputs := pool, fundings := f } =
      some (pool.reverse,
        { spendable_outputs := [], fundings := f ++ pool.reverse.map fundOf }) ∧
    runFactory (pool.length + 1) { spendable_outputs := pool, fundings := f } = none ∧
    (pool.Nodup → pool.reverse.Nodup) :=
  ⟨runFactory_complete pool f, runFactory_exhausted pool f, fun h => by simpa using h⟩

/-- C7 witness: a concrete two-coinbase pool is consumed in reverse order
without reuse and the third call fails. -/
theorem C7_pool_consumption_witness :
    runFactory [create_coinbase 1, create_coinbase 2].length
        { spendable_outputs := [create_coinbase 1, create_coinbase 2], fundings := [] } =
      some ([create_coinbase 1, create_coinbase 2].reverse,
        { spendable_outputs := [],
          fundings := [] ++ [create_coinbase 1, create_coinbase 2].reverse.map fundOf }) ∧
    runFactory ([create_coinbase 1, create_coinbase 2].length + 1)
        { spendable_outputs := [create_coinbase 1, create_coinbase 2], fundings := [] } = none ∧
    [create_coinbase 1, create_coinbase 2].reverse.Nodup := by
  have h := C7_pool_consumption [create_coinbase 1, create_coinbase 2] []
  exact ⟨h.1, h.2.1, h.2.2 (by decide)⟩

/-- C8: the claim states that the height map gains an entry on every ACCEPTED
block and on no other occasion.  This is false on the code: `build_block`
registers the height at build time, so the post-activation block carrying
fixture 3 is registered (at height 121) although its only submission in the
executed scenario asserts rejection with a ban — the map gains an entry for
a block that is never accepted. -/
theorem C8_counterexample :
    lookupH hsG postBlock.sha256 = some 121 ∧
    runTestExec.filter (submitsBlock postBlock) =
      [Step.sendBlocks [postBlock] false true (some BADSIGNATURE_ERROR)] := by decide

/-- C8 (amended): the height map gains exactly one entry per `build_block`
call — pushed on top of the previous map, which is kept intact, so the map
is append-only and no entry is ever removed — and this registration happens
at build time, including for blocks whose submission is expected to be
rejected (besides the two registrations of fetched tips by
`getbestblock`). -/
theorem C8_append_only (hs : Heights) (parent : CBlock) (txs : List CTransaction)
    (nT : Option Nat) (b : CBlock) (hs' : Heights)
    (hbb : build_block hs parent txs nT = some (b, hs')) :
    ∃ ht, lookupH hs parent.sha256 = some ht ∧ hs' = (b.sha256, ht + 1) :: hs := by
  cases hl : lookupH hs parent.sha256 with
  | none => rw [build_block_eq_none hl] at hbb; exact absurd hbb (by simp)
  | some ht =>
      rw [build_block_eq_some hl] at hbb
      simp only [Option.some.injEq, Prod.mk.injEq] at hbb
      obtain ⟨hb, hhs⟩ := hbb
      exact ⟨ht, rfl, by rw [← hhs, hb]⟩

/-- C8 witness: the amended statement applied to the first harness-built
block of the scenario. -/
theorem C8_append_only_witness :
    ∃ ht, lookupH hs1 tip1.sha256 = some ht ∧
      (build_blockD hs1 tip1 [] none).2 =
        ((build_blockD hs1 tip1 [] none).1.sha256, ht + 1) :: hs1 :=
  C8_append_only hs1 tip1 [] none (build_blockD hs1 tip1 [] none).1
    (build_blockD hs1 tip1 [] none).2 (by decide)

/-- C9: execution of the scenario never reaches the trailing assertions that
follow the post-activation block-ban check — the RPC-channel and
peer-channel no-ban re-checks of fixture 3 and the final normal-block mine —
because the early `return` of source line 248 precedes them: the full
statement list decomposes as the executed prefix, then the single return
(none occurs earlier), then exactly the three trailing statements — so the
positions holding the trailing assertions lie beyond the executed prefix in
every run. -/
theorem C9_dead_code :
    runTestFull = runTestExec ++ Step.ret :: deadSteps ∧
    Step.ret ∉ runTestExec ∧
    runTestExec.length = 18 ∧
    deadSteps =
      [Step.rpcSendTx nonminimaltx_3 (-26) (ReasonArg.rpcErrorOneArg MINIMALPUSH_ERROR),
       Step.p2pSendTx nonminimaltx_3 false MINIMALPUSH_ERROR,
       Step.sendBlocks [deadBlock] true false none] := by decide

/-- C10: every successful factory call consumes the last pool entry `src` and
returns a spending transaction whose first output pays exactly the value of
`src`'s first output minus 1000 to the unconditionally-spendable `OP_TRUE`
script, and whose single declared input references output index 0 of the
funding transaction created in the same call (source lines 154-180). -/
theorem C10_spend_shape (st : FactoryState) (tx : CTransaction) (st' : FactoryState)
    (hc : create_fund_and_spend_tx st = some (tx, st')) :
    ∃ src, st.spendable_outputs.getLast? = some src ∧
      st'.fundings = st.fundings ++ [fundOf src] ∧
      tx.vin = [{ prevout := { hash := (fundOf src).txid, n := 0 }, scriptSig := [1, 1, 81] }] ∧
      tx.vout.head? = some { nValue := (src.vout.headD dfltOut).nValue - 1000,
                             scriptPubKey := [OP_TRUE] } := by
  cases hsrc : st.spendable_outputs.getLast? with
  | none => simp [create_fund_and_spend_tx, hsrc] at hc
  | some src =>
      refine ⟨src, rfl, ?_⟩
      simp only [create_fund_and_spend_tx, hsrc, Option.some.injEq, Prod.mk.injEq] at hc
      obtain ⟨htx, hst⟩ := hc
      subst htx
      subst hst
      refine ⟨rfl, ?_, ?_⟩
      · simp [spendOf, pad_tx]
      · simp [spendOf, pad_tx]

/-- C10 witness: the statement applied to a concrete one-coinbase pool. -/
theorem C10_spend_shape_witness :
    ∃ src, (FactoryState.mk [create_coinbase 1] []).spendable_outputs.getLast? = some src ∧
      (FactoryState.mk [] [fundOf (create_coinbase 1)]).fundings =
        (FactoryState.mk [create_coinbase 1] []).fundings ++ [fundOf src] ∧
      (spendOf (create_coinbase 1)).vin =
        [{ prevout := { hash := (fundOf src).txid, n := 0 }, scriptSig := [1, 1, 81] }] ∧
      (spendOf (create_coinbase 1)).vout.head? =
        some { nValue := (src.vout.headD dfltOut).nValue - 1000,
               scriptPubKey := [OP_TRUE] } :=
  C10_spend_shape (FactoryState.mk [create_coinbase 1] []) (spendOf (create_coinbase 1))
    (FactoryState.mk [] [fundOf (create_coinbase 1)]) (by decide)

end MDA
